import Mathlib

/-!
Shallow embedding of `animator/animator.py` (classes `Animator` and `Plotter`).

The two classes are thin wrappers over matplotlib.  We embed:
  * the constructor logic of both classes (including the one explicit
    argument-consistency check in `Animator.__init__`),
  * the keypress handler `on_click` defined inside `Animator.animate`,
  * the effect of `Animator.animate` (save to file vs. show interactively),
  * the argument pass-through of `Plotter.plot`, `Plotter.scatter` and
    `Plotter.quiver`, recorded as the argument tuples handed to matplotlib.

The small slice of matplotlib the code touches (the colormap registry,
`ListedColormap`, `Normalize`, Python's `str.isspace`) is modelled from the
library's documented behavior; those models are kept separate from the
repository's own logic and are marked as such below.
-/

/-- Python exceptions that the embedded code can raise or propagate. -/
inductive PyErr where
  | attributeError (msg : String)
  | keyError (key : String)
deriving DecidableEq, Repr

/-! ### Model of the matplotlib fragment used by the code -/

/-- Model of matplotlib's `Normalize(vmin=..., vmax=...)` object: the code only
ever constructs `Normalize(vmin=0, vmax=len(custom)-1)` and otherwise stores the
caller's object, so the two bounds suffice. -/
structure Normalize where
  vmin : Int
  vmax : Int
deriving DecidableEq, Repr

/-- Model of a matplotlib colormap object: either a registry built-in (identified
by its registered name) or a `ListedColormap` with its color list, name and
size `N`. Colors are modelled by their names. -/
inductive Colormap where
  | builtin (name : String)
  | listed (colors : List String) (name : String) (N : Nat)
deriving DecidableEq, Repr

/-- The size attribute `N` of a colormap. Built-in matplotlib colormaps have
`N = 256`; a `ListedColormap` carries its own `N`. -/
def Colormap.size : Colormap → Nat
  | .builtin _ => 256
  | .listed _ _ n => n

/-- Model of matplotlib's `ListedColormap(colors, name=..., N=...)` constructor:
with `N=None` the colormap has `N = len(colors)`; with `N = n` the color list is
cycled or truncated to length `n` (documented behavior of the library; the
repository only ever calls it with `N=None`). -/
def ListedColormap.make (colors : List String) (name : String) (N : Option Nat) : Colormap :=
  match N with
  | none => .listed colors name colors.length
  | some n =>
      if colors.isEmpty then .listed [] name n
      else .listed ((List.range n).map (fun i => colors.getD (i % colors.length) "")) name n

/-- Names registered in matplotlib's built-in colormap registry `colormaps`
(a representative fixed set of the library's built-ins). -/
def builtinColormapNames : List String :=
  ["viridis", "plasma", "inferno", "magma", "cividis", "jet", "gray", "bone",
   "hot", "cool", "spring", "summer", "autumn", "winter", "copper", "hsv",
   "rainbow", "turbo", "tab10", "tab20", "Greys", "Blues", "Greens", "Reds",
   "Oranges", "Purples", "coolwarm", "seismic", "twilight", "ocean", "terrain"]

/-- Model of the registry lookup `colormaps[name]`: returns the built-in
colormap object for a registered name and raises `KeyError` otherwise. -/
def colormapsGet (name : String) : Except PyErr Colormap :=
  if name ∈ builtinColormapNames then .ok (.builtin name)
  else .error (.keyError (name ++ " is not a known colormap"))

/-- The code points for which Python's `str.isspace` considers a character
whitespace (ASCII whitespace, the Unicode space separators, and the
file/group/record/unit separators plus NEL). -/
def pyWhitespaceCodes : List Nat :=
  [9, 10, 11, 12, 13, 28, 29, 30, 31, 32, 133, 160, 5760,
   8192, 8193, 8194, 8195, 8196, 8197, 8198, 8199, 8200, 8201, 8202,
   8232, 8233, 8239, 8287, 12288]

/-- Model of Python's `str.isspace()`: true iff the string is non-empty and
every character is whitespace. -/
def pyIsspace (s : String) : Bool :=
  !s.isEmpty && s.toList.all (fun c => c.toNat ∈ pyWhitespaceCodes)

/-! ### The `Animator` class -/

/-- The attributes stored by `Animator.__init__`. `F` is the type of the
`update` callback and `G` the type of the `init` callback; both are opaque
values that the class merely stores and forwards. -/
structure Animator (F G : Type) where
  update : F
  interval : Nat
  init : G
  running : Bool
  save : Bool
  fps : Option Nat
  cache_frame_data : Bool
  frames : Option Nat
  name : String
deriving Repr

/-- Embedding of `Animator.__init__`: sets `running = True` and
`cache_frame_data = True`; if `frames is None` it resets `cache_frame_data`
to `False` and, when `save` was requested, raises
`AttributeError("Need to set frames attribute.")`. -/
def Animator.make (update : F) (init : G) (interval : Nat) (save : Bool)
    (fps : Option Nat) (frames : Option Nat) (name : String) :
    Except PyErr (Animator F G) :=
  let running := true
  let cache_frame_data := true
  match frames with
  | none =>
      let cache_frame_data := false
      if save then .error (.attributeError "Need to set frames attribute.")
      else .ok { update, interval, init, running, save, fps, cache_frame_data,
                 frames := none, name }
  | some k =>
      .ok { update, interval, init, running, save, fps, cache_frame_data,
            frames := some k, name }

/-- The `event_source` of a `FuncAnimation`: `None`, or a library timer that is
either running or stopped (`start()` / `stop()` toggle this flag). -/
structure EventSource where
  timerRunning : Bool
deriving DecidableEq, Repr

/-- The mutable state read and written by the keypress handler: the animator's
`running` flag and the animation's `event_source`. -/
structure AnimRun where
  running : Bool
  event_source : Option EventSource
deriving DecidableEq, Repr

/-- Embedding of the handler `on_click` defined inside `Animator.animate`:
returns immediately when `anim.event_source is None`; otherwise, when
`e.key.isspace()`, it stops the timer and clears `running` if running, and
starts the timer and sets `running` if paused. Any other key leaves the state
unchanged. -/
def on_click (key : String) (st : AnimRun) : AnimRun :=
  match st.event_source with
  | none => st
  | some _ =>
      if pyIsspace key then
        if st.running then
          { running := false, event_source := some { timerRunning := false } }
        else
          { running := true, event_source := some { timerRunning := true } }
      else st

/-- The arguments `Animator.animate` hands to the `FuncAnimation` constructor. -/
structure FuncAnimationArgs (F G : Type) where
  update : F
  init_func : G
  frames : Option Nat
  cache_frame_data : Bool
  interval : Nat
  repeats : Bool
deriving Repr

/-- The terminal effect of `Animator.animate`: either a video file is written
(via `anim.save`) or the interactive window is shown (via `plt.show`). -/
inductive AnimateEffect where
  | savedFile (path : String) (writer : String) (fps : Option Nat)
  | shown
deriving DecidableEq, Repr

/-- The observable outcome of `Animator.animate`. -/
structure AnimateResult (F G : Type) where
  anim : FuncAnimationArgs F G
  effect : AnimateEffect
deriving Repr

/-- Embedding of `Animator.animate`: builds the `FuncAnimation` from the stored
attributes (with `repeat=False`), then either saves `name + '.mp4'` with the
ffmpeg writer at the stored `fps` (when `save`) or shows the window. -/
def Animator.animate (st : Animator F G) : AnimateResult F G :=
  { anim := { update := st.update, init_func := st.init, frames := st.frames,
              cache_frame_data := st.cache_frame_data, interval := st.interval,
              repeats := false },
    effect :=
      if st.save then .savedFile (st.name ++ ".mp4") "ffmpeg" st.fps
      else .shown }

/-! ### The `Plotter` class -/

/-- The attributes stored by `Plotter.__init__`. -/
structure Plotter where
  norm : Option Normalize
  cmap : Option Colormap
deriving DecidableEq, Repr

/-- Embedding of `Plotter.__init__`: stores the caller's `norm`; when
`standard` is given it looks the name up in the registry (a failed lookup
propagates); otherwise when `custom` is given it builds
`ListedColormap(custom, name='custom', N=None)` and overwrites `self.norm`
with `Normalize(vmin=0, vmax=len(custom)-1)`; otherwise `cmap` is `None`. -/
def Plotter.make (standard : Option String) (custom : Option (List String))
    (norm : Option Normalize) : Except PyErr Plotter :=
  match standard with
  | some s => (colormapsGet s).map (fun cm => { norm := norm, cmap := some cm })
  | none =>
      match custom with
      | some cs =>
          .ok { norm := some { vmin := 0, vmax := (cs.length : Int) - 1 },
                cmap := some (ListedColormap.make cs "custom" none) }
      | none => .ok { norm := norm, cmap := none }

/-- The Python value handed to `plt.scatter` as `c`: either a Python `list`
or any other value (an int, `None`, ...). -/
inductive CArg (C : Type) where
  | pylist (xs : List C)
  | other (v : C)
deriving DecidableEq, Repr

/-- The argument tuple `Plotter.plot` hands to `plt.imshow` (after `plt.cla()`). -/
structure ImshowCall (D : Type) where
  cleared : Bool
  data : D
  cmap : Option Colormap
  norm : Option Normalize
deriving DecidableEq, Repr

/-- Embedding of `Plotter.plot`: clears the axes and calls
`plt.imshow(data, cmap=self.cmap, norm=self.norm)`. -/
def Plotter.plot (st : Plotter) (data : D) : ImshowCall D :=
  { cleared := true, data, cmap := st.cmap, norm := st.norm }

/-- The argument tuple `Plotter.scatter` hands to `plt.scatter`, together with
the `plt.xlim`/`plt.ylim` calls and whether the axes were cleared. -/
structure ScatterCall (X C S : Type) where
  cleared : Bool
  x : List X
  y : List X
  c : List C
  cmap : Option Colormap
  norm : Option Normalize
  s : S
  xlim : Int × Int
  ylim : Int × Int
deriving DecidableEq, Repr

/-- Embedding of `Plotter.scatter`: when `type(c) is not list` the value is
replaced by `[c] * len(x)`; the axes are cleared when `redraw`; then
`plt.scatter(x, y, c=c, cmap=self.cmap, norm=self.norm, s=s)` and the two
limit calls are made. -/
def Plotter.scatter (st : Plotter) (x y : List X) (xlim ylim : Int × Int)
    (c : CArg C) (redraw : Bool) (s : S) : ScatterCall X C S :=
  let c := match c with
    | .pylist xs => xs
    | .other v => List.replicate x.length v
  { cleared := redraw, x, y, c, cmap := st.cmap, norm := st.norm, s, xlim, ylim }

/-- The argument tuple `Plotter.quiver` hands to `plt.quiver`, together with
the limit calls. The constants `width=0.005` and `scale=30` are recorded as
rationals. -/
structure QuiverCall (X : Type) where
  cleared : Bool
  x : List X
  y : List X
  u : List X
  v : List X
  width : ℚ
  scale : ℚ
  xlim : Int × Int
  ylim : Int × Int
deriving DecidableEq, Repr

/-- Embedding of `Plotter.quiver`: clears the axes and calls
`plt.quiver(x, y, u, v, width=0.005, scale=30)` followed by the limit calls.
Note that neither `cmap` nor `norm` is forwarded here. -/
def Plotter.quiver (_st : Plotter) (x y u v : List X) (xlim ylim : Int × Int) :
    QuiverCall X :=
  { cleared := true, x, y, u, v, width := 1/200, scale := 30, xlim, ylim }

/-! ### Theorems for the claims -/

/-- C1: `Animator.__init__` raises an `AttributeError` if and only if `save` is
`True` and `frames` is `None`; in every other combination of `save` and
`frames` the constructor's argument-consistency check raises nothing. -/
theorem animator_make_attrerror_iff {F G : Type} (u : F) (i : G) (iv : Nat)
    (save : Bool) (fps frames : Option Nat) (nm : String) :
    ((∃ msg, Animator.make u i iv save fps frames nm
        = .error (.attributeError msg))
      ↔ save = true ∧ frames = none)
    ∧ (¬(save = true ∧ frames = none) →
        ∃ st, Animator.make u i iv save fps frames nm = .ok st) := by
  rcases frames with _ | k <;> cases save <;> simp [Animator.make]

/-- Witness for C1: with `save = true` and `frames = none` the constructor
raises the attribute error, and with `save = true`, `frames = some 10` it
succeeds. -/
theorem animator_make_attrerror_iff_witness :
    (∃ msg, Animator.make () () 100 true none none "simulation"
        = .error (.attributeError msg))
    ∧ (∃ st, Animator.make () () 100 true (some 24) (some 10) "simulation"
        = .ok st) :=
  ⟨(animator_make_attrerror_iff () () 100 true none none "simulation").1.2
      (by simp),
   (animator_make_attrerror_iff () () 100 true (some 24) (some 10)
      "simulation").2 (by simp)⟩

/-- C8: immediately after every successful `Animator` construction, `running`
is `True`, and `cache_frame_data` is `True` if and only if `frames` is not
`None`. -/
theorem animator_make_initial_flags {F G : Type} (u : F) (i : G) (iv : Nat)
    (save : Bool) (fps frames : Option Nat) (nm : String) (st : Animator F G)
    (h : Animator.make u i iv save fps frames nm = .ok st) :
    st.running = true ∧ (st.cache_frame_data = true ↔ frames ≠ none) := by
  rcases frames with _ | k <;> cases save <;>
    simp [Animator.make] at h <;> subst h <;> simp

/-- Witness for C8 at a concrete successful construction. -/
theorem animator_make_initial_flags_witness :
    ({ update := (), interval := 100, init := (), running := true,
       save := false, fps := none, cache_frame_data := true,
       frames := some 10, name := "simulation" } : Animator Unit Unit).running
        = true
    ∧ (({ update := (), interval := 100, init := (), running := true,
          save := false, fps := none, cache_frame_data := true,
          frames := some 10, name := "simulation" } :
            Animator Unit Unit).cache_frame_data = true
        ↔ (some 10 : Option Nat) ≠ none) :=
  animator_make_initial_flags () () 100 false none (some 10) "simulation" _ rfl

/-- C2: with a live event source, a key press satisfying the handler's space
test (`e.key.isspace()`, true in particular for the space character) flips the
`running` flag, stopping the timer when it was running and starting it when it
was paused; two consecutive such presses restore the original `running`
value. -/
theorem on_click_space_toggles (key : String) (st : AnimRun) (es : EventSource)
    (hes : st.event_source = some es) (hkey : pyIsspace key = true) :
    (on_click key st).running = !st.running
    ∧ (st.running = true →
        on_click key st
          = { running := false, event_source := some { timerRunning := false } })
    ∧ (st.running = false →
        on_click key st
          = { running := true, event_source := some { timerRunning := true } })
    ∧ (on_click key (on_click key st)).running = st.running := by
  obtain ⟨r, e⟩ := st
  replace hes : e = some es := hes
  subst hes
  cases r <;> simp_all [on_click]

/-- Witness for C2: pressing the space key while running with a live timer. -/
theorem on_click_space_toggles_witness :
    (on_click " " ⟨true, some ⟨true⟩⟩).running = !true
    ∧ (true = true →
        on_click " " ⟨true, some ⟨true⟩⟩
          = { running := false, event_source := some { timerRunning := false } })
    ∧ (true = false →
        on_click " " ⟨true, some ⟨true⟩⟩
          = { running := true, event_source := some { timerRunning := true } })
    ∧ (on_click " " (on_click " " ⟨true, some ⟨true⟩⟩)).running = true :=
  on_click_space_toggles " " ⟨true, some ⟨true⟩⟩ ⟨true⟩ rfl (by decide)

/-- C9: a key press failing the handler's space test (`e.key.isspace()` false),
and any key press delivered while the event source is `None`, leaves the
`running` flag and the timer state unchanged. -/
theorem on_click_nonspace_noop (key : String) (st : AnimRun) :
    (pyIsspace key = false → on_click key st = st)
    ∧ (st.event_source = none → on_click key st = st) := by
  obtain ⟨r, e⟩ := st
  constructor
  · intro h
    cases e <;> simp [on_click, h]
  · intro h
    replace h : e = none := h
    subst h
    rfl

/-- Witness for C9: the key `"a"` leaves the state unchanged, as does a space
press with no event source. -/
theorem on_click_nonspace_noop_witness :
    on_click "a" ⟨true, some ⟨true⟩⟩ = ⟨true, some ⟨true⟩⟩
    ∧ on_click " " ⟨false, none⟩ = ⟨false, none⟩ :=
  ⟨(on_click_nonspace_noop "a" ⟨true, some ⟨true⟩⟩).1 (by decide),
   (on_click_nonspace_noop " " ⟨false, none⟩).2 rfl⟩

/-- C3: with `standard = None`, a non-empty custom color sequence `L` produces
a `ListedColormap` of size `N = len(L)`; and a built-in colormap name passed as
`standard` yields that registry object as `self.cmap`. -/
theorem plotter_make_cmap (L : List String) (hL : L ≠ [])
    (s : String) (hs : s ∈ builtinColormapNames)
    (custom : Option (List String)) (norm : Option Normalize) :
    (∃ st, Plotter.make none (some L) none = .ok st
        ∧ st.cmap = some (.listed L "custom" L.length)
        ∧ ∀ cm, st.cmap = some cm → cm.size = L.length)
    ∧ (∃ st, Plotter.make (some s) custom norm = .ok st
        ∧ colormapsGet s = .ok (.builtin s)
        ∧ st.cmap = some (.builtin s)) := by
  have hget : colormapsGet s = .ok (.builtin s) := by simp [colormapsGet, hs]
  refine ⟨⟨_, rfl, rfl, ?_⟩, ⟨{ norm := norm, cmap := some (.builtin s) }, ?_, hget, rfl⟩⟩
  · rintro cm hcm
    rw [Option.some_inj] at hcm
    subst hcm
    rfl
  · rw [Plotter.make, hget]
    rfl

/-- Witness for C3 with `L = ["red", "green"]` and `s = "viridis"`. -/
theorem plotter_make_cmap_witness :
    (∃ st, Plotter.make none (some ["red", "green"]) none = .ok st
        ∧ st.cmap = some (.listed ["red", "green"] "custom" ["red", "green"].length)
        ∧ ∀ cm, st.cmap = some cm → cm.size = ["red", "green"].length)
    ∧ (∃ st, Plotter.make (some "viridis") none none = .ok st
        ∧ colormapsGet "viridis" = .ok (.builtin "viridis")
        ∧ st.cmap = some (.builtin "viridis")) :=
  plotter_make_cmap ["red", "green"] (by decide) "viridis" (by decide) none none

/-- C10: when both `standard` (a registered name) and `custom` are supplied,
`standard` takes precedence: `self.cmap` is the built-in colormap, the custom
sequence is ignored, and `self.norm` keeps the caller's value. -/
theorem plotter_make_standard_precedence (s : String)
    (hs : s ∈ builtinColormapNames) (L : List String) (norm : Option Normalize) :
    Plotter.make (some s) (some L) norm
      = .ok { norm := norm, cmap := some (.builtin s) }
    ∧ Plotter.make (some s) (some L) norm = Plotter.make (some s) none norm := by
  have hget : colormapsGet s = .ok (.builtin s) := by simp [colormapsGet, hs]
  have h1 : Plotter.make (some s) (some L) norm
      = .ok { norm := norm, cmap := some (.builtin s) } := by
    rw [Plotter.make, hget]
    rfl
  have h2 : Plotter.make (some s) none norm
      = .ok { norm := norm, cmap := some (.builtin s) } := by
    rw [Plotter.make, hget]
    rfl
  exact ⟨h1, h1.trans h2.symm⟩

/-- Witness for C10 with `s = "jet"`, a custom list and a caller norm. -/
theorem plotter_make_standard_precedence_witness :
    Plotter.make (some "jet") (some ["red", "blue"]) (some ⟨2, 9⟩)
      = .ok { norm := some ⟨2, 9⟩, cmap := some (.builtin "jet") }
    ∧ Plotter.make (some "jet") (some ["red", "blue"]) (some ⟨2, 9⟩)
      = Plotter.make (some "jet") none (some ⟨2, 9⟩) :=
  plotter_make_standard_precedence "jet" (by decide) ["red", "blue"] (some ⟨2, 9⟩)

/-- Counterexample to C6 as stated: with `standard = None` and a custom color
list, the caller's `norm` (here `Normalize ⟨5, 7⟩`) is not the stored
normalization after construction — it is overwritten. -/
theorem plotter_norm_overwritten_cex :
    ¬ ((Plotter.make none (some ["red", "blue"]) (some ⟨5, 7⟩)).map Plotter.norm
        = .ok (some ⟨5, 7⟩)) := by
  intro h
  simp [Plotter.make, ListedColormap.make, Except.map] at h

/-- C6 amended: the caller's `norm` is stored unchanged whenever `standard` is
supplied or `custom` is absent; when `standard` is `None` and `custom` is a
list `cs`, the stored norm is instead `Normalize(vmin=0, vmax=len(cs)-1)`. -/
theorem plotter_make_norm_stored (standard : Option String)
    (custom : Option (List String)) (n : Normalize) (st : Plotter)
    (h : Plotter.make standard custom (some n) = .ok st) :
    (standard ≠ none ∨ custom = none → st.norm = some n)
    ∧ (standard = none → ∀ cs, custom = some cs →
        st.norm = some ⟨0, (cs.length : Int) - 1⟩) := by
  rcases standard with _ | s
  · rcases custom with _ | cs
    · simp only [Plotter.make, Except.ok.injEq] at h
      subst h
      simp
    · simp only [Plotter.make, Except.ok.injEq] at h
      subst h
      simp
  · rcases hmem : colormapsGet s with e | cm
    · rw [Plotter.make, hmem] at h
      exact absurd h (by simp [Except.map])
    · rw [Plotter.make, hmem] at h
      replace h : ({ norm := some n, cmap := some cm } : Plotter) = st := by
        simpa [Except.map] using h
      subst h
      simp

/-- Witness for C6 amended: a standard colormap keeps the caller's norm, and a
custom list replaces it with the derived `Normalize`. -/
theorem plotter_make_norm_stored_witness :
    (((some "gray" : Option String) ≠ none ∨ (none : Option (List String)) = none →
        ({ norm := some ⟨5, 7⟩, cmap := some (.builtin "gray") } : Plotter).norm
          = some ⟨5, 7⟩)
      ∧ ((some "gray" : Option String) = none →
          ∀ cs, (none : Option (List String)) = some cs →
            ({ norm := some ⟨5, 7⟩, cmap := some (.builtin "gray") } : Plotter).norm
              = some ⟨0, (cs.length : Int) - 1⟩))
    ∧ (((none : Option String) ≠ none ∨
          (some ["red", "blue", "gold"] : Option (List String)) = none →
        ({ norm := some ⟨0, 2⟩,
           cmap := some (.listed ["red", "blue", "gold"] "custom" 3) } : Plotter).norm
          = some ⟨5, 7⟩)
      ∧ ((none : Option String) = none →
          ∀ cs, (some ["red", "blue", "gold"] : Option (List String)) = some cs →
            ({ norm := some ⟨0, 2⟩,
               cmap := some (.listed ["red", "blue", "gold"] "custom" 3) } : Plotter).norm
              = some ⟨0, (cs.length : Int) - 1⟩)) :=
  ⟨plotter_make_norm_stored (some "gray") none ⟨5, 7⟩ _
      (by rw [Plotter.make]; rfl),
   plotter_make_norm_stored none (some ["red", "blue", "gold"]) ⟨5, 7⟩ _ rfl⟩

/-- C7: when the registry lookup for `standard` fails, `Plotter.__init__`
propagates exactly the library's exception, unmodified. -/
theorem plotter_make_lookup_error_propagates (s : String) (e : PyErr)
    (h : colormapsGet s = .error e) (custom : Option (List String))
    (norm : Option Normalize) :
    Plotter.make (some s) custom norm = .error e := by
  rw [Plotter.make, h]
  rfl

/-- Witness for C7 with the unregistered name `"nope"`. -/
theorem plotter_make_lookup_error_propagates_witness :
    Plotter.make (some "nope") none none
      = .error (.keyError ("nope" ++ " is not a known colormap")) :=
  plotter_make_lookup_error_propagates "nope" _ rfl none none

/-- Counterexample to C4 as stated: a non-list color argument `c = 5` is not
passed to `plt.scatter` as given — it is replaced by the list `[5, 5]`
(`[c] * len(x)` for `len(x) = 2`). -/
theorem scatter_c_transformed_cex :
    (Plotter.scatter { norm := none, cmap := none } [(0 : Int), 1] [2, 3]
        (0, 10) (0, 10) (CArg.other (5 : Int)) true ()).c = [5, 5]
    ∧ CArg.pylist [(5 : Int), 5] ≠ CArg.other (5 : Int) := by
  exact ⟨rfl, by simp⟩

/-- C4 amended: `plot`'s `data`, `scatter`'s `x` and `y`, and `quiver`'s `x`,
`y`, `u`, `v` are passed to the plotting library exactly as given; `scatter`'s
`c` is passed as given when it is a Python list, while a non-list `c` is first
replaced by a list of `len(x)` copies of it. -/
theorem plotter_calls_pass_arrays {D X C S : Type} (st : Plotter) (data : D)
    (x y u v : List X) (xlim ylim : Int × Int) (xs : List C) (cv : C)
    (redraw : Bool) (s : S) :
    (st.plot data).data = data
    ∧ (st.scatter x y xlim ylim (.pylist xs) redraw s).x = x
    ∧ (st.scatter x y xlim ylim (.pylist xs) redraw s).y = y
    ∧ (st.scatter x y xlim ylim (.pylist xs) redraw s).c = xs
    ∧ (st.scatter x y xlim ylim (.other cv) redraw s).c
        = List.replicate x.length cv
    ∧ (st.quiver x y u v xlim ylim).x = x
    ∧ (st.quiver x y u v xlim ylim).y = y
    ∧ (st.quiver x y u v xlim ylim).u = u
    ∧ (st.quiver x y u v xlim ylim).v = v :=
  ⟨rfl, rfl, rfl, rfl, rfl, rfl, rfl, rfl, rfl⟩

/-- C5: every `Animator` successfully constructed with `save = True` renders to
the file `name + '.mp4'` with the ffmpeg writer at the stored `fps` and does
not show a window; every `Animator` successfully constructed with
`save = False` (for any `frames`, including the default `None`) shows the
window and writes no file. The two halves are independent: each quantifies
over its own construction. -/
theorem animator_animate_save_or_show {F G : Type} (u : F) (i : G) (iv : Nat)
    (fps frames : Option Nat) (nm : String) :
    (∀ st : Animator F G, Animator.make u i iv true fps frames nm = .ok st →
        st.animate.effect = .savedFile (nm ++ ".mp4") "ffmpeg" fps
        ∧ st.animate.effect ≠ .shown)
    ∧ (∀ st : Animator F G, Animator.make u i iv false fps frames nm = .ok st →
        st.animate.effect = .shown
        ∧ ∀ p w f, st.animate.effect ≠ .savedFile p w f) := by
  constructor <;> intro st h <;> rcases frames with _ | k
  · simp [Animator.make] at h
  · simp only [Animator.make, Except.ok.injEq] at h
    subst h
    simp [Animator.animate]
  · simp [Animator.make] at h
    subst h
    simp [Animator.animate]
  · simp only [Animator.make, Except.ok.injEq] at h
    subst h
    simp [Animator.animate]

/-- Witness for C5: the save half at a concrete `frames = some 10`
construction, and the show half at the constructor's default configuration
`save = false`, `frames = none`. -/
theorem animator_animate_save_or_show_witness :
    (((⟨(), 100, (), true, true, some 24, true, some 10, "sim"⟩ :
          Animator Unit Unit).animate.effect
        = .savedFile ("sim" ++ ".mp4") "ffmpeg" (some 24)
      ∧ (⟨(), 100, (), true, true, some 24, true, some 10, "sim"⟩ :
          Animator Unit Unit).animate.effect ≠ .shown)
    ∧ ((⟨(), 100, (), true, false, some 24, false, none, "sim"⟩ :
          Animator Unit Unit).animate.effect = .shown
      ∧ ∀ p w f, (⟨(), 100, (), true, false, some 24, false, none, "sim"⟩ :
          Animator Unit Unit).animate.effect ≠ .savedFile p w f)) :=
  ⟨(animator_animate_save_or_show () () 100 (some 24) (some 10) "sim").1 _ rfl,
   (animator_animate_save_or_show () () 100 (some 24) none "sim").2 _ rfl⟩
